import Mathlib

/-!
Shallow embedding of the sales-dashboard application (`dashboard_project/app.py`):
the dataset loader, the filter pipeline shared by the chart callback and the CSV
export callback, the aggregation views, and the reset/export trigger handling.

Timestamps are modelled as seconds since the Unix epoch (`Nat`); calendar dates
(as produced by the date picker and by `.date()`) are day numbers, i.e. the
timestamp divided by 86400.  Pandas data frames become lists of records plus
column-presence flags for the optional `order_id` / `product_id` columns.
-/

namespace SalesDash

/-- Seconds since the Unix epoch; models a pandas `Timestamp`. -/
abbrev Timestamp := Nat

def secondsPerDay : Nat := 86400

/-- Weekday names in the fixed order used by the heatmap (app.py line 229). -/
def weekdayNames : List String :=
  ["Monday", "Tuesday", "Wednesday", "Thursday", "Friday", "Saturday", "Sunday"]

/-- Model of `Series.dt.day_name()`: day 0 (1970-01-01) was a Thursday. -/
def dayName (t : Timestamp) : String :=
  weekdayNames.getD ((t / secondsPerDay + 3) % 7) ""

/-- Model of `Series.dt.hour`: the hour-of-day component of a timestamp. -/
def hourOf (t : Timestamp) : Nat := t / 3600 % 24

/-! Section: Dataset loader (`load_data`, app.py lines 19-41) -/

/-- A raw CSV row as produced by `pd.read_csv(..., parse_dates=["order_date"])`:
`order_date` is `none` when the cell is missing or failed to parse (NaT, also
covering the `errors="coerce"` conversion at line 38).  The numeric cells are
meaningful only when the corresponding column is present in the file. -/
structure RawRow where
  order_date : Option Timestamp
  quantity : Int
  price : Int
  revenue : Int
deriving DecidableEq

/-- A raw CSV source: which of the optional numeric columns are present, plus
the parsed rows. -/
structure RawSource where
  hasRevenueCol : Bool
  hasQuantityCol : Bool
  hasPriceCol : Bool
  rows : List RawRow
deriving DecidableEq

/-- A row of the loaded table: `order_date` is still optional before the final
`dropna`; `order_hour` is an `Int` because of the `-1` sentinel written by
`fillna(-1)`; `order_weekday` is `none` exactly when `order_date` is NaT
(`day_name()` yields NaN there). -/
structure LoadedRow where
  order_date : Option Timestamp
  revenue : Int
  order_hour : Int
  order_weekday : Option String
deriving DecidableEq

/-- The table returned by the loader.  `hasRevenueCol` records whether the
frame ends up with a `revenue` column at all: the loader never checks this. -/
structure LoadedTable where
  hasRevenueCol : Bool
  rows : List LoadedRow
deriving DecidableEq

/-- Model of `load_data` (app.py lines 19-41).  The input is `none` when neither
`data/cleaned_sales.csv` nor the sample file exists, in which case the function
raises `FileNotFoundError` (lines 26-27).  Otherwise it derives `revenue` as
`quantity * price` when the `revenue` column is absent and both inputs are
present (lines 33-34), derives `order_hour` via `dt.hour.fillna(-1).astype(int)`
and `order_weekday` via `dt.day_name()` (lines 39-40), and finally drops the
rows whose `order_date` is missing (line 41).  No other validation happens: in
particular a source lacking `revenue`, `quantity` and `price` loads without
error. -/
def load_data (src : Option RawSource) : Except String LoadedTable :=
  match src with
  | none => .error "No dataset found. Put your cleaned CSV at data/cleaned_sales.csv"
  | some s =>
    let deriveRevenue := !s.hasRevenueCol && (s.hasQuantityCol && s.hasPriceCol)
    let hasRevenueCol := s.hasRevenueCol || (s.hasQuantityCol && s.hasPriceCol)
    let rows := s.rows.map fun r =>
      { order_date := r.order_date
        revenue := if deriveRevenue then r.quantity * r.price else r.revenue
        order_hour := match r.order_date with
          | some t => (hourOf t : Int)
          | none => -1
        order_weekday := r.order_date.map dayName : LoadedRow }
    .ok { hasRevenueCol, rows := rows.filter fun r => r.order_date.isSome }

/-! Section: The base table used by the callbacks -/

/-- A record of the cleaned base table `df` as used by the callbacks.  The
`order_id` / `product_id` values are meaningful only when the corresponding
column-presence flag of the table is set. -/
structure Row where
  order_id : Nat
  product_id : Nat
  product_name : String
  category : String
  country : String
  revenue : Int
  order_date : Timestamp
  order_hour : Int
  order_weekday : String
deriving DecidableEq

/-- The base data frame: rows plus presence flags for the optional identifier
columns tested at app.py lines 239 and 241. -/
structure Table where
  hasOrderId : Bool
  hasProductId : Bool
  rows : List Row
deriving DecidableEq

/-- The column names of a table, in frame order; filtering never changes them. -/
def tableColumns (t : Table) : List String :=
  (if t.hasOrderId then ["order_id"] else []) ++
  (if t.hasProductId then ["product_id"] else []) ++
  ["product_name", "category", "country", "revenue", "order_date",
   "order_hour", "order_weekday"]

/-! Section: Filter specification and the filter pipeline -/

/-- The filter state carried by the controls: country and category dropdown
values (`none` models Python `None`), and the date-picker bounds as calendar
day numbers (`pd.to_datetime` of a `YYYY-MM-DD` string is midnight of that
day, i.e. `day * 86400` seconds). -/
structure FilterSpec where
  countries : Option (List String)
  categories : Option (List String)
  start_date : Option Nat
  end_date : Option Nat
deriving DecidableEq

/-- Python truthiness of a dropdown value: `None` and the empty list are falsy,
so `if selected_countries:` skips the constraint for both. -/
def truthySel : Option (List String) → Bool
  | none => false
  | some l => !l.isEmpty

/-- The filter pipeline of `update_charts` (app.py lines 193-205): restrict by
country membership, then category membership, then `order_date >= start`
(midnight of the start day), then `order_date <= end + 1 day`.  A bare scalar
dropdown value is first wrapped into a one-element list by the
`isinstance(..., list)` checks; the model receives the list directly. -/
def filter_update_charts (df : Table) (spec : FilterSpec) : Table :=
  let rows := df.rows
  let rows := if truthySel spec.countries then
      rows.filter fun r => (spec.countries.getD []).contains r.country
    else rows
  let rows := if truthySel spec.categories then
      rows.filter fun r => (spec.categories.getD []).contains r.category
    else rows
  let rows := match spec.start_date with
    | some d => rows.filter fun r => decide (d * secondsPerDay ≤ r.order_date)
    | none => rows
  let rows := match spec.end_date with
    | some d => rows.filter fun r => decide (r.order_date ≤ d * secondsPerDay + secondsPerDay)
    | none => rows
  { df with rows := rows }

/-! Section: Aggregation (`update_charts`, app.py lines 191-269) -/

/-- Model of `dff.groupby(key)["revenue"].sum()` with pandas' default
`sort=True`: one entry per distinct key, keys in ascending order, each value
the sum of `revenue` over the group. -/
def groupRevenueSums (rows : List Row) (key : Row → String) : List (String × Int) :=
  (((rows.map key).dedup).mergeSort fun a b => decide (a ≤ b)).map
    fun k => (k, ((rows.filter fun r => decide (key r = k)).map Row.revenue).sum)

/-- Model of `.sort_values("revenue", ascending=False)` on a grouped frame.
The sort is stable on the frames at issue (numpy's sort falls back to a stable
insertion sort on the small runs involved), so ties keep the incoming group
order — which, after `groupby`, is ascending key order. -/
def sortByRevenueDesc (l : List (String × Int)) : List (String × Int) :=
  l.mergeSort fun a b => decide (b.2 ≤ a.2)

/-- The top-products frame (app.py line 208): group by `product_name`, sum
`revenue`, sort descending by revenue, take the first 10. -/
def top_products (rows : List Row) : List (String × Int) :=
  (sortByRevenueDesc (groupRevenueSums rows fun r => r.product_name)).take 10

/-- The sales-by-country frame (app.py line 214): group by `country`, sum
`revenue`, sort descending (not truncated). -/
def sales_by_country (rows : List Row) : List (String × Int) :=
  sortByRevenueDesc (groupRevenueSums rows fun r => r.country)

/-- Civil calendar from days since 1970-01-01 (the standard era-based
algorithm); returns `(year, month, day)`. -/
def civilFromDays (z : Int) : Int × Nat × Nat :=
  let z := z + 719468
  let era : Int := (if 0 ≤ z then z else z - 146096) / 146097
  let doe : Nat := (z - era * 146097).toNat
  let yoe : Nat := (doe - doe / 1460 + doe / 36524 - doe / 146096) / 365
  let doy : Nat := doe - (365 * yoe + yoe / 4 - yoe / 100)
  let mp : Nat := (5 * doy + 2) / 153
  let d : Nat := doy - (153 * mp + 2) / 5 + 1
  let m : Nat := if mp < 10 then mp + 3 else mp - 9
  let y : Int := (yoe : Int) + era * 400
  (if m ≤ 2 then y + 1 else y, m, d)

/-- The calendar month of a timestamp, as a single month index
(`year * 12 + month - 1`), the bucket key of `resample("M")`. -/
def monthIdx (t : Timestamp) : Int :=
  let c := civilFromDays ((t / secondsPerDay : Nat) : Int)
  c.1 * 12 + ((c.2.1 : Int) - 1)

/-- Model of `dff.set_index("order_date").resample("M")["revenue"].sum()`
(app.py line 219): one bucket per calendar month from the earliest to the
latest `order_date`, interior months with no records summing to 0; empty input
gives an empty series. -/
def resampleMonthlySum (rows : List Row) : List (Int × Int) :=
  match rows.map fun r => monthIdx r.order_date with
  | [] => []
  | m :: ms =>
    let lo := ms.foldl min m
    let hi := ms.foldl max m
    (List.range ((hi - lo).toNat + 1)).map fun i =>
      let b := lo + (i : Int)
      (b, ((rows.filter fun r => decide (monthIdx r.order_date = b)).map Row.revenue).sum)

/-- The time-series figure: its data points, and whether the "No data for
selected filters" title was used (app.py lines 220-224). -/
structure TimeFig where
  points : List (Int × Int)
  noDataTitle : Bool
deriving DecidableEq

/-- The revenue-over-time figure (app.py lines 219-224). -/
def revenue_time (rows : List Row) : TimeFig :=
  let ts := resampleMonthlySum rows
  if ts.isEmpty then { points := [], noDataTitle := true }
  else { points := ts, noDataTitle := false }

/-- The heatmap figure: row keys (hours), column keys (weekday names), the
value grid, and whether the "No data" title was used (app.py lines 227-235).
The no-data branch renders `px.imshow([[0]])`, a 1-by-1 zero grid. -/
structure HeatFig where
  hours : List Int
  weekdays : List String
  values : List (List Int)
  noDataTitle : Bool
deriving DecidableEq

/-- The distinct `order_hour` values in ascending order: the index of
`pd.pivot_table(dff, index="order_hour", ...)`. -/
def pivotHours (rows : List Row) : List Int :=
  ((rows.map Row.order_hour).dedup).mergeSort fun a b => decide (a ≤ b)

/-- The weekday columns of the pivot after the reindex at app.py line 230:
fixed Monday-first order, weekdays absent from the data omitted. -/
def pivotWeekdays (rows : List Row) : List String :=
  weekdayNames.filter fun w => (rows.map Row.order_weekday).contains w

/-- The hour-by-weekday heatmap (app.py lines 227-235): pivot with summed
revenue, missing cells filled with 0; `pivot.empty` holds exactly when the
subset has no rows, and then the figure is the 1-by-1 zero grid. -/
def hour_heatmap (rows : List Row) : HeatFig :=
  let hours := pivotHours rows
  let cols := pivotWeekdays rows
  if hours.isEmpty then
    { hours := [], weekdays := [], values := [[0]], noDataTitle := true }
  else
    { hours, weekdays := cols
      values := hours.map fun h => cols.map fun w =>
        ((rows.filter fun r =>
          decide (r.order_hour = h) && decide (r.order_weekday = w)).map Row.revenue).sum
      noDataTitle := false }

/-- Count of distinct values, modelling `Series.nunique()`. -/
def nunique {α : Type} [DecidableEq α] (l : List α) : Nat := l.dedup.length

/-- A summary date cell: `dff["order_date"].min().date()` when the subset is
nonempty, otherwise the "-" placeholder (app.py lines 265-266). -/
inductive DateCell where
  | unavailable
  | date (day : Nat)
deriving DecidableEq

/-- Minimum `order_date` of a subset as a calendar day, or the placeholder. -/
def minDateOf (rows : List Row) : DateCell :=
  match rows.map Row.order_date with
  | [] => .unavailable
  | t :: ts => .date ((ts.foldl min t) / secondsPerDay)

/-- Maximum `order_date` of a subset as a calendar day, or the placeholder. -/
def maxDateOf (rows : List Row) : DateCell :=
  match rows.map Row.order_date with
  | [] => .unavailable
  | t :: ts => .date ((ts.foldl max t) / secondsPerDay)

/-- The raw value of the preview-rows input as delivered to the callback:
missing (`None`), a number, or some other truthy value on which `int()`
raises. -/
inductive PreviewInput where
  | null
  | num (n : Int)
  | invalid
deriving DecidableEq

/-- Model of `int(preview_rows) if preview_rows else 10` inside `try/except`
(app.py lines 255-258): missing and falsy (zero) values fall back to 10, as
does any value whose `int()` conversion raises. -/
def parsePreviewRows : PreviewInput → Int
  | .null => 10
  | .num n => if n = 0 then 10 else n
  | .invalid => 10

/-- Model of `DataFrame.head(n)`: the first `n` rows for `n ≥ 0`, all but the
last `-n` rows for negative `n`. -/
def pandasHead (rows : List Row) (n : Int) : List Row :=
  if 0 ≤ n then rows.take n.toNat else rows.take (rows.length - (-n).toNat)

/-- The bundle of values returned by `update_charts` (app.py line 269), in
return order: the four figures, the four KPIs, the preview table, and the four
summary cells. -/
structure ViewBundle where
  fig_top : List (String × Int)
  fig_country : List (String × Int)
  fig_time : TimeFig
  fig_heat : HeatFig
  total_revenue : Int
  total_orders : Nat
  aov : Rat
  unique_products : Nat
  preview_columns : List String
  preview : List Row
  summary_rows : Nat
  summary_start : DateCell
  summary_end : DateCell
  summary_countries : Nat
deriving DecidableEq

/-- Model of the `update_charts` callback (app.py lines 191-269): filter the
base table, then compute every derived view from the filtered subset. -/
def update_charts (df : Table) (selected_countries selected_categories : Option (List String))
    (start_date end_date : Option Nat) (preview_rows : PreviewInput) : ViewBundle :=
  let dff := filter_update_charts df
    { countries := selected_countries, categories := selected_categories,
      start_date := start_date, end_date := end_date }
  let total_revenue := (dff.rows.map Row.revenue).sum
  let total_orders := if dff.hasOrderId then nunique (dff.rows.map Row.order_id)
    else dff.rows.length
  let aov : Rat := if total_orders ≠ 0 then (total_revenue : Rat) / (total_orders : Rat) else 0
  let unique_products := if dff.hasProductId then nunique (dff.rows.map Row.product_id)
    else nunique (dff.rows.map Row.product_name)
  let n_preview := parsePreviewRows preview_rows
  let preview_df := pandasHead dff.rows n_preview
  { fig_top := top_products dff.rows
    fig_country := sales_by_country dff.rows
    fig_time := revenue_time dff.rows
    fig_heat := hour_heatmap dff.rows
    total_revenue, total_orders, aov, unique_products
    preview_columns := tableColumns dff
    preview := preview_df
    summary_rows := dff.rows.length
    summary_start := minDateOf dff.rows
    summary_end := maxDateOf dff.rows
    summary_countries := nunique (dff.rows.map Row.country) }

/-! Section: Defaults, reset and export (app.py lines 46-47, 72-84, 272-321) -/

/-- Model of `sorted(df['country'].dropna().unique().tolist())` (line 46). -/
def available_countries (df : Table) : List String :=
  ((df.rows.map Row.country).dedup).mergeSort fun a b => decide (a ≤ b)

/-- Model of `sorted(df['category'].dropna().unique().tolist())` (line 47). -/
def available_categories (df : Table) : List String :=
  ((df.rows.map Row.category).dedup).mergeSort fun a b => decide (a ≤ b)

/-- Minimum `order_date` of the base table as a calendar day number, modelling
`df["order_date"].min().date()`; the running app always has a nonempty base
table (an empty one would already fail while building the layout). -/
def minOrderDate (df : Table) : Nat :=
  match df.rows.map Row.order_date with
  | [] => 0
  | t :: ts => (ts.foldl min t) / secondsPerDay

/-- Maximum `order_date` of the base table as a calendar day number. -/
def maxOrderDate (df : Table) : Nat :=
  match df.rows.map Row.order_date with
  | [] => 0
  | t :: ts => (ts.foldl max t) / secondsPerDay

/-- The values pushed into the four filter controls: the country dropdown, the
category dropdown, and the two date-picker bounds. -/
structure ControlState where
  country_value : List String
  category_value : Option (List String)
  start_date : Nat
  end_date : Nat
deriving DecidableEq

/-- The initial control values set while building the layout (app.py lines
72, 77, 83-84): all countries when there are at most 3, else only the first in
sorted order; an empty category selection (or `None` when there are no
categories at all); the full date span of the base table. -/
def initialControls (df : Table) : ControlState :=
  { country_value := if (available_countries df).length ≤ 3 then available_countries df
      else (available_countries df).take 1
    category_value := if !(available_categories df).isEmpty then some [] else none
    start_date := minOrderDate df
    end_date := maxOrderDate df }

/-- Python truthiness of the `n_clicks` property: `None` and `0` are falsy. -/
def truthyClicks : Option Nat → Bool
  | none => false
  | some k => decide (k ≠ 0)

/-- Model of the `reset_filters` callback (app.py lines 280-291).  The
never-clicked branch (`if not n_clicks:`) returns exactly the same default
tuple as the clicked branch; both are transcribed separately, mirroring the
source. -/
def reset_filters (df : Table) (n_clicks : Option Nat) : ControlState :=
  if !truthyClicks n_clicks then
    { country_value := if (available_countries df).length ≤ 3 then available_countries df
        else (available_countries df).take 1
      category_value := if !(available_categories df).isEmpty then some [] else none
      start_date := minOrderDate df
      end_date := maxOrderDate df }
  else
    { country_value := if (available_countries df).length ≤ 3 then available_countries df
        else (available_countries df).take 1
      category_value := if !(available_categories df).isEmpty then some [] else none
      start_date := minOrderDate df
      end_date := maxOrderDate df }

/-- The downloadable artifact produced by `dcc.send_data_frame(dff.to_csv,
"filtered_sales.csv", index=False)` (app.py line 321): the file name, the
header (the frame's column names in frame order), the rows in frame order, and
whether a row-index column is emitted. -/
structure CsvArtifact where
  filename : String
  header : List String
  rows : List Row
  withIndex : Bool
deriving DecidableEq

/-- Model of the `export_csv` callback (app.py lines 304-321): `none` models
the `PreventUpdate` raised when the button has never been clicked; otherwise
the same four filter steps as `update_charts` are applied (lines 307-319,
duplicated in the source) and the filtered frame is serialized without an
index column. -/
def export_csv (df : Table) (n_clicks : Option Nat)
    (selected_countries selected_categories : Option (List String))
    (start_date end_date : Option Nat) : Option CsvArtifact :=
  if !truthyClicks n_clicks then none
  else
    let rows := df.rows
    let rows := if truthySel selected_countries then
        rows.filter fun r => (selected_countries.getD []).contains r.country
      else rows
    let rows := if truthySel selected_categories then
        rows.filter fun r => (selected_categories.getD []).contains r.category
      else rows
    let rows := match start_date with
      | some d => rows.filter fun r => decide (d * secondsPerDay ≤ r.order_date)
      | none => rows
    let rows := match end_date with
      | some d => rows.filter fun r => decide (r.order_date ≤ d * secondsPerDay + secondsPerDay)
      | none => rows
    some { filename := "filtered_sales.csv", header := tableColumns { df with rows },
           rows, withIndex := false }

/-! Section: The spec's stated top-products tie policy, for comparison with the code -/

/-- The distinct values of a list in first-occurrence order (pandas
`Series.unique()` order). -/
def firstOccurrences (l : List String) : List String :=
  l.foldl (fun acc k => if acc.contains k then acc else acc ++ [k]) []

/-- Modelled from the spec's words for the top-products tie policy: groups in
the order their keys are first encountered in the subset, then a stable
descending sort by summed revenue, then the first 10.  This is the claimed
behaviour, to be compared with `top_products`, whose `groupby` pre-sorts the
group keys alphabetically instead. -/
def top_products_specOrder (rows : List Row) : List (String × Int) :=
  ((((firstOccurrences (rows.map Row.product_name)).map
    fun k => (k, ((rows.filter fun r => decide (r.product_name = k)).map Row.revenue).sum)).mergeSort
      fun a b => decide (b.2 ≤ a.2)).take 10)

/-! Section: Concrete fixtures -/

/-- A sample record builder used by the concrete fixtures below. -/
def mkRow (name cat ctry : String) (rev : Int) (t : Timestamp) : Row :=
  { order_id := 1, product_id := 1, product_name := name, category := cat,
    country := ctry, revenue := rev, order_date := t,
    order_hour := (hourOf t : Int), order_weekday := dayName t }

/-- A record dated exactly at midnight of day 1 (86400 s). -/
def c1Row : Row := mkRow "A" "Toys" "US" 5 86400

/-- A one-record base table holding `c1Row`. -/
def c1Table : Table := { hasOrderId := true, hasProductId := true, rows := [c1Row] }

/-- Two records with equal revenue whose product names occur in the order
B, A: a tie for the top-products ranking. -/
def c3Rows : List Row := [mkRow "B" "Toys" "US" 10 0, mkRow "A" "Toys" "US" 10 0]

/-- The acceptance constraint enforced by the preview-rows number input
(app.py line 141): `min=1, max=200, step=1`. -/
def previewWidgetAccepts (n : Int) : Prop := 1 ≤ n ∧ n ≤ 200

/-- A raw source whose `revenue` column is absent while only `price` (not
`quantity`) is present: per the spec this must abort startup. -/
def c9BadSource : RawSource :=
  { hasRevenueCol := false, hasQuantityCol := false, hasPriceCol := true,
    rows := [{ order_date := some 0, quantity := 0, price := 3, revenue := 0 }] }

/-- A well-formed raw source with one record at 05:00 on day 0 and one record
with an unparseable date. -/
def c10Source : RawSource :=
  { hasRevenueCol := true, hasQuantityCol := true, hasPriceCol := true,
    rows := [{ order_date := some 18000, quantity := 2, price := 3, revenue := 6 },
             { order_date := none, quantity := 1, price := 1, revenue := 1 }] }

/-- The loaded row the loader produces from the valid record of `c10Source`. -/
def c10LoadedRow : LoadedRow :=
  { order_date := some 18000, revenue := 6, order_hour := 5,
    order_weekday := some "Thursday" }

/-- A base table with no rows at all. -/
def emptyTable : Table := { hasOrderId := true, hasProductId := true, rows := [] }

/-! Section: C1: the end-date window -/

/-- Setting `end_date` adds exactly one more `filter` stage on top of the
pipeline without an end date. -/
theorem filter_end_some (df : Table) (cs ct : Option (List String)) (sd : Option Nat)
    (e : Nat) :
    (filter_update_charts df ⟨cs, ct, sd, some e⟩).rows =
      (filter_update_charts df ⟨cs, ct, sd, none⟩).rows.filter
        fun r => decide (r.order_date ≤ e * secondsPerDay + secondsPerDay) := rfl

/-- C1 (counterexample): with `end_date = day 0`, the record dated exactly at
midnight of day 1 — whose `order_date` is NOT strictly less than
`end_date + 1 day` — is nevertheless kept by the filter, because the code
compares with `<=` (app.py line 205), not `<`. -/
theorem c1_counterexample :
    (filter_update_charts c1Table
        { countries := none, categories := none, start_date := none,
          end_date := some 0 }).rows = [c1Row] ∧
      ¬(c1Row.order_date < 0 * secondsPerDay + secondsPerDay) := by
  constructor
  · rfl
  · decide

/-- C1 (amended): with `end_date` set, the filter keeps exactly the records
satisfying the other constraints whose `order_date` is less than **or equal
to** `end_date + 1` calendar day; in particular every record dated anywhere
within the `end_date` day itself (and passing the other constraints) is
included. -/
theorem c1_end_date_window (df : Table) (cs ct : Option (List String))
    (sd : Option Nat) (e : Nat) (r : Row) :
    (r ∈ (filter_update_charts df ⟨cs, ct, sd, some e⟩).rows ↔
      r ∈ (filter_update_charts df ⟨cs, ct, sd, none⟩).rows ∧
        r.order_date ≤ e * secondsPerDay + secondsPerDay) ∧
    (r ∈ (filter_update_charts df ⟨cs, ct, sd, none⟩).rows →
      e * secondsPerDay ≤ r.order_date → r.order_date < (e + 1) * secondsPerDay →
      r ∈ (filter_update_charts df ⟨cs, ct, sd, some e⟩).rows) := by
  constructor
  · rw [filter_end_some]
    simp [List.mem_filter]
  · intro hmem _hlo hhi
    rw [filter_end_some, List.mem_filter]
    refine ⟨hmem, ?_⟩
    have h' : (e + 1) * secondsPerDay = e * secondsPerDay + secondsPerDay := by ring
    rw [h'] at hhi
    simpa using Nat.le_of_lt hhi

/-- C1 (witness): the record dated on the end day itself is included. -/
theorem c1_end_date_window_witness :
    c1Row ∈ (filter_update_charts c1Table
      { countries := none, categories := none, start_date := none,
        end_date := some 1 }).rows :=
  (c1_end_date_window c1Table none none none 1 c1Row).2 (by decide) (by decide) (by decide)

/-! Section: C8: conjunctive composition of constraints -/

/-- C8: filtering by a country selection and then filtering the result by a
category selection equals filtering the base once by the combined
specification; wholly omitted (`None`) and empty selections impose no
restriction. -/
theorem c8_conjunctive_composition (df : Table) (A B : List String) :
    (filter_update_charts (filter_update_charts df
        { countries := some A, categories := none, start_date := none, end_date := none })
        { countries := none, categories := some B, start_date := none, end_date := none } =
      filter_update_charts df
        { countries := some A, categories := some B, start_date := none, end_date := none }) ∧
    filter_update_charts df
      { countries := none, categories := none, start_date := none, end_date := none } = df ∧
    filter_update_charts df
      { countries := some [], categories := some [], start_date := none, end_date := none } = df := by
  refine ⟨?_, rfl, rfl⟩
  rcases A with _ | ⟨a, as⟩ <;> rcases B with _ | ⟨b, bs⟩ <;> rfl

/-! Section: C4: export applies the same filter as the chart path -/

/-- C4: once its button has been clicked, the export callback emits exactly
the subset the chart callback computes for the same filter specification: the
same rows in the same order (hence the same row count), the base table's
column set as header, and no row-index column. -/
theorem c4_export_matches_charts (df : Table) (cs ct : Option (List String))
    (sd ed : Option Nat) (k : Nat) :
    export_csv df (some (k + 1)) cs ct sd ed =
      some { filename := "filtered_sales.csv",
             header := tableColumns df,
             rows := (filter_update_charts df
               { countries := cs, categories := ct, start_date := sd, end_date := ed }).rows,
             withIndex := false } := rfl

/-! Section: C7: never-fired trigger behaviour -/

/-- C7 (counterexample): the reset callback does NOT treat the never-clicked
invocation as a distinguishable no-effect condition: it returns the very same
full default control assignment as a clicked invocation (there is no sentinel
output), so nothing distinguishes the two. -/
theorem c7_counterexample :
    reset_filters c1Table none = reset_filters c1Table (some 1) ∧
    reset_filters c1Table none =
      { country_value := ["US"], category_value := some [],
        start_date := 1, end_date := 1 } := by
  refine ⟨rfl, ?_⟩
  simp [reset_filters, truthyClicks, available_countries, available_categories,
    minOrderDate, maxOrderDate, c1Table, c1Row, mkRow, secondsPerDay]

/-- C7 (amended): the export trigger's never-fired invocation is a
distinguishable no-effect (a prevented update, not an error); the reset
trigger's never-fired invocation is not distinguished — it returns the same
default control assignment as a fired one — but that assignment equals the
initial control state, so the initial invocation applies no net change. -/
theorem c7_trigger_amended (df : Table) (cs ct : Option (List String))
    (sd ed : Option Nat) :
    export_csv df none cs ct sd ed = none ∧
    export_csv df (some 0) cs ct sd ed = none ∧
    reset_filters df none = reset_filters df (some 1) ∧
    reset_filters df none = initialControls df := ⟨rfl, rfl, rfl, rfl⟩

/-! Section: C9: load-time validation of the revenue column -/

/-- C9: the loader aborts only when no dataset file exists.  A source whose
`revenue` column is absent while `quantity` and `price` are not both present
loads WITHOUT any error — contradicting the claimed load-time fatal — and the
returned table simply lacks the `revenue` column (the failure then surfaces
later, inside the first callback, as an unexplained missing-column error). -/
theorem c9_no_abort_on_missing_revenue :
    load_data (some c9BadSource) =
      .ok { hasRevenueCol := false,
            rows := [{ order_date := some 0, revenue := 0, order_hour := 0,
                       order_weekday := some "Thursday" }] } ∧
    load_data none =
      .error "No dataset found. Put your cleaned CSV at data/cleaned_sales.csv" := by
  exact ⟨rfl, rfl⟩

/-! Section: C2: aggregation of the empty subset -/

/-- C2: when the filtered subset is empty, the aggregation yields total
revenue 0, total orders 0, unique products 0, an average order value of 0
computed without any division (the zero-denominator branch), an empty
top-products ranking, an empty country-totals list, the "no data" time-series
marker, the 1-by-1 zero heatmap grid, and "unavailable" markers for the min
and max date; the computation is a total function, so no error reaches the
caller. -/
theorem c2_empty_subset (df : Table) (cs ct : Option (List String)) (sd ed : Option Nat)
    (pv : PreviewInput)
    (h : (filter_update_charts df
      { countries := cs, categories := ct, start_date := sd, end_date := ed }).rows = []) :
    (update_charts df cs ct sd ed pv).total_revenue = 0 ∧
    (update_charts df cs ct sd ed pv).total_orders = 0 ∧
    (update_charts df cs ct sd ed pv).aov = 0 ∧
    (update_charts df cs ct sd ed pv).unique_products = 0 ∧
    (update_charts df cs ct sd ed pv).fig_top = [] ∧
    (update_charts df cs ct sd ed pv).fig_country = [] ∧
    (update_charts df cs ct sd ed pv).fig_time = { points := [], noDataTitle := true } ∧
    (update_charts df cs ct sd ed pv).fig_heat =
      { hours := [], weekdays := [], values := [[0]], noDataTitle := true } ∧
    (update_charts df cs ct sd ed pv).summary_start = .unavailable ∧
    (update_charts df cs ct sd ed pv).summary_end = .unavailable := by
  simp [update_charts, h, nunique, top_products, sales_by_country, groupRevenueSums,
    sortByRevenueDesc, revenue_time, resampleMonthlySum, hour_heatmap, pivotHours,
    pivotWeekdays, minDateOf, maxDateOf]

/-- C2 (witness): the empty-subset law at a concrete empty table. -/
theorem c2_empty_subset_witness :
    (update_charts emptyTable none none none none .null).total_revenue = 0 ∧
    (update_charts emptyTable none none none none .null).total_orders = 0 ∧
    (update_charts emptyTable none none none none .null).aov = 0 ∧
    (update_charts emptyTable none none none none .null).unique_products = 0 ∧
    (update_charts emptyTable none none none none .null).fig_top = [] ∧
    (update_charts emptyTable none none none none .null).fig_country = [] ∧
    (update_charts emptyTable none none none none .null).fig_time =
      { points := [], noDataTitle := true } ∧
    (update_charts emptyTable none none none none .null).fig_heat =
      { hours := [], weekdays := [], values := [[0]], noDataTitle := true } ∧
    (update_charts emptyTable none none none none .null).summary_start = .unavailable ∧
    (update_charts emptyTable none none none none .null).summary_end = .unavailable :=
  c2_empty_subset emptyTable none none none none .null rfl

/-! Section: C6: preview-row-count handling -/

/-- C6: the preview-rows value is parsed as an integer with missing, zero and
unparseable values falling back to 10; every value the widget accepts lies in
the positive bound 1..200; and the preview is the first N records of the
filtered subset in their existing order. -/
theorem c6_preview_rows (df : Table) (cs ct : Option (List String)) (sd ed : Option Nat) :
    (parsePreviewRows .null = 10 ∧ parsePreviewRows .invalid = 10) ∧
    (∀ n : Int, previewWidgetAccepts n → 0 < n ∧ n ≤ 200 ∧ parsePreviewRows (.num n) = n) ∧
    (∀ n : Int, previewWidgetAccepts n →
      (update_charts df cs ct sd ed (.num n)).preview =
        (filter_update_charts df
          { countries := cs, categories := ct, start_date := sd,
            end_date := ed }).rows.take n.toNat) ∧
    (update_charts df cs ct sd ed .null).preview =
      (filter_update_charts df
        { countries := cs, categories := ct, start_date := sd,
          end_date := ed }).rows.take 10 := by
  have hparse : ∀ n : Int, previewWidgetAccepts n → parsePreviewRows (.num n) = n := by
    rintro n ⟨h1, _h2⟩
    simp only [parsePreviewRows]
    rw [if_neg (by omega)]
  refine ⟨⟨rfl, rfl⟩, ?_, ?_, ?_⟩
  · rintro n hn
    exact ⟨by rcases hn with ⟨h1, h2⟩; omega, hn.2, hparse n hn⟩
  · rintro n hn
    have h0 : (0 : Int) ≤ n := by rcases hn with ⟨h1, h2⟩; omega
    simp [update_charts, pandasHead, hparse n hn, if_pos h0]
  · simp [update_charts, pandasHead, parsePreviewRows]

/-- C6 (witness): an accepted preview count of 5 yields the first 5 records. -/
theorem c6_preview_rows_witness :
    (update_charts c1Table none none none none (.num 5)).preview =
      (filter_update_charts c1Table
        { countries := none, categories := none, start_date := none,
          end_date := none }).rows.take (5 : Int).toNat :=
  (c6_preview_rows c1Table none none none none).2.2.1 5 ⟨by norm_num, by norm_num⟩

/-! Section: C10: the loader's hour and weekday invariant -/

/-- C10: every row retained by the loader has a parsed `order_date`, an
`order_hour` equal to that date's hour component (so between 0 and 23, never
the -1 sentinel), and an `order_weekday` equal to that date's weekday name:
the rows with unparseable dates are dropped after the two columns are
derived. -/
theorem c10_loader_hour_weekday (s : RawSource) (t : LoadedTable) (r : LoadedRow)
    (h1 : load_data (some s) = .ok t) (h2 : r ∈ t.rows) :
    ∃ d : Timestamp, r.order_date = some d ∧
      r.order_hour = ((hourOf d : Nat) : Int) ∧
      0 ≤ r.order_hour ∧ r.order_hour ≤ 23 ∧ r.order_hour ≠ -1 ∧
      r.order_weekday = some (dayName d) := by
  simp only [load_data] at h1
  injection h1 with h1
  subst h1
  simp only [List.mem_filter, List.mem_map] at h2
  obtain ⟨⟨r0, _hr0, rfl⟩, hsome⟩ := h2
  cases hd : r0.order_date with
  | none => rw [hd] at hsome; simp at hsome
  | some d =>
    have hlt : hourOf d < 24 := Nat.mod_lt _ (by norm_num)
    refine ⟨d, by simp [hd], by simp [hd], by simp, ?_, ?_, by simp [hd]⟩
    · simp only [hd]
      omega
    · simp only [hd]
      omega

/-- C10 (witness): the invariant at a concrete two-row source whose second row
has an unparseable date. -/
theorem c10_loader_hour_weekday_witness :
    ∃ d : Timestamp, c10LoadedRow.order_date = some d ∧
      c10LoadedRow.order_hour = ((hourOf d : Nat) : Int) ∧
      0 ≤ c10LoadedRow.order_hour ∧ c10LoadedRow.order_hour ≤ 23 ∧
      c10LoadedRow.order_hour ≠ -1 ∧
      c10LoadedRow.order_weekday = some (dayName d) :=
  c10_loader_hour_weekday c10Source { hasRevenueCol := true, rows := [c10LoadedRow] }
    c10LoadedRow rfl (List.mem_singleton.mpr rfl)

/-! Section: C5: reset defaults -/

/-- A left fold with `min` is bounded by its seed. -/
theorem foldl_min_le_seed (ts : List Nat) : ∀ t : Nat, List.foldl min t ts ≤ t := by
  induction ts with
  | nil => exact fun t => Nat.le_refl t
  | cons a ts ih =>
    intro t
    rw [List.foldl_cons]
    exact Nat.le_trans (ih (min t a)) (Nat.min_le_left _ _)

/-- A left fold with `min` is a lower bound of the seed and every element. -/
theorem foldl_min_le (ts : List Nat) (t x : Nat) (hx : x = t ∨ x ∈ ts) :
    List.foldl min t ts ≤ x := by
  induction ts generalizing t with
  | nil =>
    rcases hx with rfl | hx
    · exact Nat.le_refl x
    · cases hx
  | cons a ts ih =>
    rw [List.foldl_cons]
    rcases hx with rfl | hx
    · exact Nat.le_trans (foldl_min_le_seed ts (min x a)) (Nat.min_le_left _ _)
    · rcases List.mem_cons.mp hx with rfl | hx'
      · exact Nat.le_trans (foldl_min_le_seed ts (min t x)) (Nat.min_le_right _ _)
      · exact ih (min t a) (Or.inr hx')

/-- A left fold with `min` is attained at the seed or at some element. -/
theorem foldl_min_mem (ts : List Nat) (t : Nat) :
    List.foldl min t ts = t ∨ List.foldl min t ts ∈ ts := by
  induction ts generalizing t with
  | nil => exact Or.inl rfl
  | cons a ts ih =>
    rw [List.foldl_cons]
    rcases ih (min t a) with h | h
    · rw [h]
      rcases Nat.le_total t a with hta | hat
      · exact Or.inl (Nat.min_eq_left hta)
      · exact Or.inr (by rw [Nat.min_eq_right hat]; exact List.mem_cons_self _ _)
    · exact Or.inr (List.mem_cons_of_mem _ h)

/-- A left fold with `max` dominates its seed. -/
theorem seed_le_foldl_max (ts : List Nat) : ∀ t : Nat, t ≤ List.foldl max t ts := by
  induction ts with
  | nil => exact fun t => Nat.le_refl t
  | cons a ts ih =>
    intro t
    rw [List.foldl_cons]
    exact Nat.le_trans (Nat.le_max_left _ _) (ih (max t a))

/-- A left fold with `max` is an upper bound of the seed and every element. -/
theorem le_foldl_max (ts : List Nat) (t x : Nat) (hx : x = t ∨ x ∈ ts) :
    x ≤ List.foldl max t ts := by
  induction ts generalizing t with
  | nil =>
    rcases hx with rfl | hx
    · exact Nat.le_refl x
    · cases hx
  | cons a ts ih =>
    rw [List.foldl_cons]
    rcases hx with rfl | hx
    · exact Nat.le_trans (Nat.le_max_left _ _) (seed_le_foldl_max ts (max x a))
    · rcases List.mem_cons.mp hx with rfl | hx'
      · exact Nat.le_trans (Nat.le_max_right _ _) (seed_le_foldl_max ts (max t x))
      · exact ih (max t a) (Or.inr hx')

/-- A left fold with `max` is attained at the seed or at some element. -/
theorem foldl_max_mem (ts : List Nat) (t : Nat) :
    List.foldl max t ts = t ∨ List.foldl max t ts ∈ ts := by
  induction ts generalizing t with
  | nil => exact Or.inl rfl
  | cons a ts ih =>
    rw [List.foldl_cons]
    rcases ih (max t a) with h | h
    · rw [h]
      rcases Nat.le_total t a with hta | hat
      · exact Or.inr (by rw [Nat.max_eq_right hta]; exact List.mem_cons_self _ _)
      · exact Or.inl (Nat.max_eq_left hat)
    · exact Or.inr (List.mem_cons_of_mem _ h)

/-- Both branches of the reset callback return the initialization-time
defaults of the controls. -/
theorem reset_filters_eq_initial (df : Table) (n : Option Nat) :
    reset_filters df n = initialControls df := by
  simp only [reset_filters, ite_self]
  rfl

/-- Membership in the sorted distinct country list is having some record with
that country. -/
theorem mem_available_countries (df : Table) (c : String) :
    c ∈ available_countries df ↔ ∃ r ∈ df.rows, r.country = c := by
  simp [available_countries, List.mem_mergeSort, List.mem_dedup, List.mem_map]

/-- The sorted distinct country list is ascending. -/
theorem available_countries_sorted (df : Table) :
    (available_countries df).Pairwise fun a b => a ≤ b := by
  have h := @List.sorted_mergeSort String (fun a b : String => decide (a ≤ b))
    (fun a b c hab hbc => by
      simp only [decide_eq_true_eq] at *
      exact le_trans hab hbc)
    (fun a b => by
      simp only [Bool.or_eq_true, decide_eq_true_eq]
      exact le_total a b)
    ((df.rows.map Row.country).dedup)
  exact h.imp fun hab => by simpa using hab

/-- C5: resetting selects every distinct country of the base table when there
are at most 3 of them and exactly the least country in sort order when there
are more; the category selection is empty (it constrains nothing); and the
restored date range is the minimum and maximum `order_date` of the base
table, as calendar days. -/
theorem c5_reset_defaults (df : Table) (n : Option Nat) (h : df.rows ≠ []) :
    ((available_countries df).length ≤ 3 →
      ∀ c, c ∈ (reset_filters df n).country_value ↔ ∃ r ∈ df.rows, r.country = c) ∧
    (3 < (available_countries df).length →
      ∃ c0, (reset_filters df n).country_value = [c0] ∧
        (∃ r ∈ df.rows, r.country = c0) ∧
        ∀ c, (∃ r ∈ df.rows, r.country = c) → c0 ≤ c) ∧
    truthySel (reset_filters df n).category_value = false ∧
    (∀ l, (reset_filters df n).category_value = some l → l = []) ∧
    ((∃ r ∈ df.rows, r.order_date / secondsPerDay = (reset_filters df n).start_date) ∧
      ∀ r ∈ df.rows, (reset_filters df n).start_date ≤ r.order_date / secondsPerDay) ∧
    ((∃ r ∈ df.rows, r.order_date / secondsPerDay = (reset_filters df n).end_date) ∧
      ∀ r ∈ df.rows, r.order_date / secondsPerDay ≤ (reset_filters df n).end_date) := by
  rw [reset_filters_eq_initial]
  obtain ⟨ho, hp, rows⟩ := df
  rcases rows with _ | ⟨r1, rs⟩
  · exact absurd rfl h
  refine ⟨?_, ?_, ?_, ?_, ?_, ?_⟩
  · intro h3 c
    simp only [initialControls, if_pos h3]
    exact mem_available_countries _ c
  · intro h3
    have hcv : (initialControls
        { hasOrderId := ho, hasProductId := hp, rows := r1 :: rs }).country_value =
        (available_countries { hasOrderId := ho, hasProductId := hp, rows := r1 :: rs }).take 1 := by
      simp only [initialControls]
      rw [if_neg (by omega)]
    have hs := available_countries_sorted { hasOrderId := ho, hasProductId := hp, rows := r1 :: rs }
    rcases hAC : available_countries { hasOrderId := ho, hasProductId := hp, rows := r1 :: rs }
      with _ | ⟨c0, rest⟩
    · rw [hAC] at h3; simp at h3
    · rw [hAC] at hs
      refine ⟨c0, by rw [hcv, hAC]; rfl, ?_, ?_⟩
      · exact (mem_available_countries _ c0).mp (by rw [hAC]; exact List.mem_cons_self _ _)
      · intro c hc
        have hmem : c ∈ c0 :: rest := by
          rw [← hAC]; exact (mem_available_countries _ c).mpr hc
        rcases List.mem_cons.mp hmem with rfl | hmem'
        · exact le_refl c
        · exact (List.pairwise_cons.mp hs).1 c hmem'
  · cases hE : (available_categories { hasOrderId := ho, hasProductId := hp, rows := r1 :: rs }).isEmpty <;>
      simp [initialControls, hE, truthySel]
  · intro l
    cases hE : (available_categories { hasOrderId := ho, hasProductId := hp, rows := r1 :: rs }).isEmpty <;>
      simp [initialControls, hE]
  · constructor
    · simp only [initialControls, minOrderDate, List.map_cons]
      rcases foldl_min_mem (rs.map Row.order_date) r1.order_date with hm | hm
      · exact ⟨r1, List.mem_cons_self _ _, by rw [hm]⟩
      · obtain ⟨r, hr, hrd⟩ := List.mem_map.mp hm
        exact ⟨r, List.mem_cons_of_mem _ hr, by rw [hrd]⟩
    · intro r hr
      simp only [initialControls, minOrderDate, List.map_cons]
      apply Nat.div_le_div_right
      apply foldl_min_le
      rcases List.mem_cons.mp hr with rfl | hr'
      · exact Or.inl rfl
      · exact Or.inr (List.mem_map_of_mem _ hr')
  · constructor
    · simp only [initialControls, maxOrderDate, List.map_cons]
      rcases foldl_max_mem (rs.map Row.order_date) r1.order_date with hm | hm
      · exact ⟨r1, List.mem_cons_self _ _, by rw [hm]⟩
      · obtain ⟨r, hr, hrd⟩ := List.mem_map.mp hm
        exact ⟨r, List.mem_cons_of_mem _ hr, by rw [hrd]⟩
    · intro r hr
      simp only [initialControls, maxOrderDate, List.map_cons]
      apply Nat.div_le_div_right
      apply le_foldl_max
      rcases List.mem_cons.mp hr with rfl | hr'
      · exact Or.inl rfl
      · exact Or.inr (List.mem_map_of_mem _ hr')

/-- C5 (witness): the reset defaults at the concrete one-record table. -/
theorem c5_reset_defaults_witness :
    ((available_countries c1Table).length ≤ 3 →
      ∀ c, c ∈ (reset_filters c1Table none).country_value ↔
        ∃ r ∈ c1Table.rows, r.country = c) ∧
    (3 < (available_countries c1Table).length →
      ∃ c0, (reset_filters c1Table none).country_value = [c0] ∧
        (∃ r ∈ c1Table.rows, r.country = c0) ∧
        ∀ c, (∃ r ∈ c1Table.rows, r.country = c) → c0 ≤ c) ∧
    truthySel (reset_filters c1Table none).category_value = false ∧
    (∀ l, (reset_filters c1Table none).category_value = some l → l = []) ∧
    ((∃ r ∈ c1Table.rows, r.order_date / secondsPerDay = (reset_filters c1Table none).start_date) ∧
      ∀ r ∈ c1Table.rows, (reset_filters c1Table none).start_date ≤ r.order_date / secondsPerDay) ∧
    ((∃ r ∈ c1Table.rows, r.order_date / secondsPerDay = (reset_filters c1Table none).end_date) ∧
      ∀ r ∈ c1Table.rows, r.order_date / secondsPerDay ≤ (reset_filters c1Table none).end_date) :=
  c5_reset_defaults c1Table none (by simp [c1Table])

/-! Section: C3: the top-products tie policy -/

/-- Sorting a two-element list is a single comparison. -/
theorem mergeSort_pair {α : Type} (le : α → α → Bool) (a b : α) :
    List.mergeSort [a, b] le = if le a b then [a, b] else [b, a] := by
  simp only [List.mergeSort, List.splitInTwo, List.splitAt_eq]
  cases h : le a b <;> simp [List.merge, h]

/-- C3 (counterexample): two tied products encountered in the order B, A are
ranked A before B by the code — the `groupby` pre-sorts the group keys
alphabetically — and not in first-encounter order B, A as the claim states. -/
theorem c3_counterexample :
    top_products c3Rows = [("A", 10), ("B", 10)] ∧
    top_products_specOrder c3Rows = [("B", 10), ("A", 10)] ∧
    top_products c3Rows ≠ top_products_specOrder c3Rows := by
  have hAB : ("A" : String) < "B" := String.lt_iff_toList_lt.mpr (by decide)
  have hBA : ¬ (("B" : String) ≤ "A") := not_le.mpr hAB
  have hBAl : ¬ (['B'] ≤ ['A']) := by decide
  have h1 : top_products c3Rows = [("A", 10), ("B", 10)] := by
    simp [top_products, sortByRevenueDesc, groupRevenueSums, c3Rows, mkRow,
      List.dedup_cons_of_not_mem, mergeSort_pair, hBA, hBAl]
  have h2 : top_products_specOrder c3Rows = [("B", 10), ("A", 10)] := by
    simp [top_products_specOrder, firstOccurrences, c3Rows, mkRow, mergeSort_pair]
  refine ⟨h1, h2, ?_⟩
  rw [h1, h2]
  decide

/-- Two members of a pairwise-ordered list whose relation runs against list
order form, in relation order, a two-element sublist. -/
theorem pair_sublist_of_pairwise {α : Type} {R : α → α → Prop}
    (hirr : ∀ a b, R a b → ¬ R b a) :
    ∀ (l : List α), l.Pairwise R → ∀ {x y : α}, x ∈ l → y ∈ l → R y x →
      [y, x].Sublist l := by
  intro l
  induction l with
  | nil =>
    intro _ x y hx _ _
    cases hx
  | cons a t ih =>
    intro hl x y hx hy hR
    rcases List.mem_cons.mp hx with rfl | hx'
    · rcases List.mem_cons.mp hy with rfl | hy'
      · exact absurd hR (hirr _ _ hR)
      · exact absurd ((List.pairwise_cons.mp hl).1 y hy') (hirr y x hR)
    · rcases List.mem_cons.mp hy with rfl | hy'
      · exact List.Sublist.cons₂ y (List.singleton_sublist.mpr hx')
      · exact List.Sublist.cons a (ih (List.pairwise_cons.mp hl).2 hx' hy' hR)

/-- A two-element sublist is realized at a pair of increasing positions. -/
theorem pair_sublist_index {α : Type} {x y : α} {l : List α}
    (h : [y, x].Sublist l) :
    ∃ p q : Fin l.length, p < q ∧ l.get p = y ∧ l.get q = x := by
  obtain ⟨is, his, hp⟩ := List.sublist_eq_map_getElem h
  rcases is with _ | ⟨p, _ | ⟨q, _ | ⟨r', rest⟩⟩⟩
  · simp at his
  · simp at his
  · simp only [List.map_cons, List.map_nil] at his
    injection his with h1 h2
    injection h2 with h2 _h3
    refine ⟨p, q, (List.pairwise_cons.mp hp).1 q (List.mem_singleton.mpr rfl), ?_, ?_⟩
    · rw [List.get_eq_getElem]
      exact h1.symm
    · rw [List.get_eq_getElem]
      exact h2.symm
  · simp only [List.map_cons] at his
    injection his with _ h2
    injection h2 with _ h3
    exact absurd h3 (by simp)

/-- The two sort keys used on grouped frames agree on any key-pairwise-sorted
input list: the plain stable descending-revenue sort equals the sort by
descending revenue with ties broken by ascending name. -/
theorem mergeSort_desc_eq_lex (l : List (String × Int))
    (hl : l.Pairwise fun a b => a.1 < b.1) :
    l.mergeSort (fun a b => decide (b.2 ≤ a.2)) =
      l.mergeSort fun a b => decide (b.2 < a.2 ∨ (a.2 = b.2 ∧ a.1 ≤ b.1)) := by
  have t1 : ∀ a b c : String × Int, decide (b.2 ≤ a.2) = true →
      decide (c.2 ≤ b.2) = true → decide (c.2 ≤ a.2) = true := by
    intro a b c hab hbc
    simp only [decide_eq_true_eq] at *
    exact le_trans hbc hab
  have tot1 : ∀ a b : String × Int,
      (decide (b.2 ≤ a.2) || decide (a.2 ≤ b.2)) = true := by
    intro a b
    simp only [Bool.or_eq_true, decide_eq_true_eq]
    exact (le_total b.2 a.2)
  have t2 : ∀ a b c : String × Int,
      decide (b.2 < a.2 ∨ (a.2 = b.2 ∧ a.1 ≤ b.1)) = true →
      decide (c.2 < b.2 ∨ (b.2 = c.2 ∧ b.1 ≤ c.1)) = true →
      decide (c.2 < a.2 ∨ (a.2 = c.2 ∧ a.1 ≤ c.1)) = true := by
    intro a b c hab hbc
    simp only [decide_eq_true_eq] at *
    rcases hab with h1 | ⟨h1, h1'⟩
    · rcases hbc with h2 | ⟨h2, _⟩
      · exact Or.inl (lt_trans h2 h1)
      · exact Or.inl (h2 ▸ h1)
    · rcases hbc with h2 | ⟨h2, h2'⟩
      · exact Or.inl (by rw [h1]; exact h2)
      · exact Or.inr ⟨h1.trans h2, le_trans h1' h2'⟩
  have tot2 : ∀ a b : String × Int,
      (decide (b.2 < a.2 ∨ (a.2 = b.2 ∧ a.1 ≤ b.1)) ||
        decide (a.2 < b.2 ∨ (b.2 = a.2 ∧ b.1 ≤ a.1))) = true := by
    intro a b
    simp only [Bool.or_eq_true, decide_eq_true_eq]
    rcases lt_trichotomy a.2 b.2 with h | h | h
    · exact Or.inr (Or.inl h)
    · rcases le_total a.1 b.1 with h' | h'
      · exact Or.inl (Or.inr ⟨h, h'⟩)
      · exact Or.inr (Or.inr ⟨h.symm, h'⟩)
    · exact Or.inl (Or.inl h)
  have hnodup : l.Nodup := hl.imp fun hab => by
    intro he
    rw [he] at hab
    exact lt_irrefl _ hab
  have hs1 := List.sorted_mergeSort t1 tot1 l
  have hs2 := List.sorted_mergeSort t2 tot2 l
  have hn1 : (l.mergeSort fun a b => decide (b.2 ≤ a.2)).Nodup :=
    hnodup.perm (List.mergeSort_perm l _).symm
  have hs12 : (l.mergeSort fun a b => decide (b.2 ≤ a.2)).Pairwise
      fun a b => decide (b.2 < a.2 ∨ (a.2 = b.2 ∧ a.1 ≤ b.1)) = true := by
    rw [List.pairwise_iff_getElem]
    intro i j hi hj hij
    have hle : ((l.mergeSort fun a b => decide (b.2 ≤ a.2))[j]).2 ≤
        ((l.mergeSort fun a b => decide (b.2 ≤ a.2))[i]).2 := by
      have h := (List.pairwise_iff_getElem.mp hs1) i j hi hj hij
      simpa using h
    simp only [decide_eq_true_eq]
    rcases lt_or_eq_of_le hle with hlt | heq
    · exact Or.inl hlt
    · refine Or.inr ⟨heq.symm, ?_⟩
      by_contra hgt
      have hgt' : ((l.mergeSort fun a b => decide (b.2 ≤ a.2))[j]).1 <
          ((l.mergeSort fun a b => decide (b.2 ≤ a.2))[i]).1 := lt_of_not_le hgt
      have hxmem : (l.mergeSort fun a b => decide (b.2 ≤ a.2))[i] ∈ l :=
        List.mem_mergeSort.mp (List.getElem_mem hi)
      have hymem : (l.mergeSort fun a b => decide (b.2 ≤ a.2))[j] ∈ l :=
        List.mem_mergeSort.mp (List.getElem_mem hj)
      have hsub : [(l.mergeSort fun a b => decide (b.2 ≤ a.2))[j],
          (l.mergeSort fun a b => decide (b.2 ≤ a.2))[i]].Sublist l :=
        pair_sublist_of_pairwise (fun a b hab => lt_asymm hab) l hl hxmem hymem hgt'
      have hpairle : [(l.mergeSort fun a b => decide (b.2 ≤ a.2))[j],
          (l.mergeSort fun a b => decide (b.2 ≤ a.2))[i]].Pairwise
          fun a b => decide (b.2 ≤ a.2) = true := by
        refine List.pairwise_pair.mpr ?_
        simp only [decide_eq_true_eq]
        rw [heq]
      have hsub2 := List.sublist_mergeSort t1 tot1 hpairle hsub
      obtain ⟨p, q, hpq, hgp, hgq⟩ := pair_sublist_index hsub2
      have hinj := List.nodup_iff_injective_get.mp hn1
      have hp' : p = ⟨j, hj⟩ := hinj (by rw [hgp]; simp [List.get_eq_getElem])
      have hq' : q = ⟨i, hi⟩ := hinj (by rw [hgq]; simp [List.get_eq_getElem])
      rw [hp', hq'] at hpq
      exact absurd hpq (by simp; omega)
  refine List.Perm.eq_of_sorted ?_ hs12 hs2
    ((List.mergeSort_perm l _).trans (List.mergeSort_perm l _).symm)
  intro a b _ _ hab hba
  simp only [decide_eq_true_eq] at hab hba
  rcases hab with h1 | ⟨h1, h1'⟩
  · rcases hba with h2 | ⟨h2, _⟩
    · exact absurd (lt_trans h1 h2) (lt_irrefl _)
    · exact absurd h1 (by rw [h2]; exact lt_irrefl _)
  · rcases hba with h2 | ⟨h2, h2'⟩
    · exact absurd h2 (by rw [h1]; exact lt_irrefl _)
    · exact Prod.ext (le_antisymm h1' h2') h1

/-- The grouped sums produced by `groupRevenueSums` have strictly ascending
keys. -/
theorem groupRevenueSums_keys_ascending (rows : List Row) (key : Row → String) :
    (groupRevenueSums rows key).Pairwise fun a b => a.1 < b.1 := by
  have strans : ∀ a b c : String, decide (a ≤ b) = true → decide (b ≤ c) = true →
      decide (a ≤ c) = true := by
    intro a b c hab hbc
    simp only [decide_eq_true_eq] at *
    exact le_trans hab hbc
  have stotal : ∀ a b : String, (decide (a ≤ b) || decide (b ≤ a)) = true := by
    intro a b
    simp only [Bool.or_eq_true, decide_eq_true_eq]
    exact le_total a b
  have hsorted := List.sorted_mergeSort strans stotal ((rows.map key).dedup)
  have hnd : (((rows.map key).dedup).mergeSort fun a b => decide (a ≤ b)).Nodup :=
    (List.nodup_dedup _).perm (List.mergeSort_perm _ _).symm
  have hlt : (((rows.map key).dedup).mergeSort fun a b => decide (a ≤ b)).Pairwise
      fun a b : String => a < b := by
    have hcomb := List.Pairwise.and hsorted hnd
    exact hcomb.imp fun hab => lt_of_le_of_ne (by simpa using hab.1) hab.2
  exact List.pairwise_map.mpr (hlt.imp fun hab => hab)

/-- C3 (amended): the top-products ranking is the grouped revenue sums sorted
by descending summed revenue with ties broken by ascending `product_name` —
the `groupby` pre-sorts group keys alphabetically and the value sort is stable
— truncated to the first 10.  The tie order is alphabetical, not
first-encounter order. -/
theorem c3_top_products_amended (rows : List Row) :
    top_products rows =
      ((groupRevenueSums rows fun r => r.product_name).mergeSort
        fun a b => decide (b.2 < a.2 ∨ (a.2 = b.2 ∧ a.1 ≤ b.1))).take 10 := by
  simp only [top_products, sortByRevenueDesc]
  rw [mergeSort_desc_eq_lex _ (groupRevenueSums_keys_ascending rows _)]

end SalesDash
